import Mathlib

/-!
Shallow embedding of the `dividend_policy_checker` package: the KRX
constituent normalizer (`krx.py`), the DART client (`dart.py`: status
checking, corp-code index building, paginated filing search) and the
dividend-policy evaluator (`checker.py`).  Network transport is abstracted
as an environment function from requests to already-parsed JSON responses;
everything after parsing is translated statement by statement from the
Python source.
-/

/-- Python `a or b` on optional strings: `None` and `""` are falsy, so the
right operand is returned exactly when the left is absent or empty. -/
def pyOr (a b : Option String) : Option String :=
  match a with
  | none => b
  | some s => if s = "" then b else some s

/-- Python `a or d` where `d` is a plain string default (as in
`entry.get(k) or ""`). -/
def pyOrD (a : Option String) (d : String) : String :=
  match a with
  | none => d
  | some s => if s = "" then d else s

/-- Python truthiness of an optional string: `None` and `""` are falsy. -/
def truthy (a : Option String) : Bool :=
  match a with
  | none => false
  | some s => !(s == "")

/-- Characters-level both-sided whitespace trim, modelling `str.strip()`. -/
def stripChars (l : List Char) : List Char :=
  ((l.dropWhile Char.isWhitespace).reverse.dropWhile Char.isWhitespace).reverse

/-- Python `s.strip()`. -/
def stripStr (s : String) : String :=
  String.mk (stripChars s.toList)

/-! ## krx.py -/

/-- Raw KRX constituent row: the fields `normalize_constituents` inspects,
each optional (absent dictionary key = `none`). -/
structure KrxRow where
  ISU_SRT_CD : Option String
  TDD_CLSPRC : Option String
  CMP_CD : Option String
  ISU_ABBRV : Option String
  CMP_KOR : Option String
  KOR_SHRT_NM : Option String
  MKT_ID : Option String
  MKT_NM : Option String
deriving DecidableEq

/-- Normalized constituent row produced by `normalize_constituents`. -/
structure ConstRow where
  stock_code : String
  name : String
  market : String
deriving DecidableEq

/-- Ticker fallback chain: `entry.get("ISU_SRT_CD") or entry.get("TDD_CLSPRC")
or entry.get("CMP_CD")`. -/
def resolvedTicker (e : KrxRow) : Option String :=
  pyOr (pyOr e.ISU_SRT_CD e.TDD_CLSPRC) e.CMP_CD

/-- Name fallback chain: `entry.get("ISU_ABBRV") or entry.get("CMP_KOR") or
entry.get("KOR_SHRT_NM")`. -/
def resolvedName (e : KrxRow) : Option String :=
  pyOr (pyOr e.ISU_ABBRV e.CMP_KOR) e.KOR_SHRT_NM

/-- One iteration of the `normalize_constituents` loop: `none` models the
`continue` taken when the resolved ticker or name is falsy; otherwise the
appended dictionary with stripped ticker/name and defaulted market. -/
def normOne (e : KrxRow) : Option ConstRow :=
  let sc := resolvedTicker e
  let nm := resolvedName e
  if truthy sc && truthy nm then
    some ⟨stripStr (pyOrD sc ""), stripStr (pyOrD nm ""),
          pyOrD (pyOr e.MKT_ID e.MKT_NM) "KOSPI"⟩
  else none

/-- `normalize_constituents` from `krx.py`. -/
def normalize_constituents (entries : List KrxRow) : List ConstRow :=
  entries.filterMap normOne

/-- JSON value under a top-level key of the KRX response, as far as
`fetch_kospi200` inspects it: either `null` or an array of rows. -/
inductive KVal where
  | null : KVal
  | rows : List KrxRow → KVal
deriving DecidableEq

/-- Python `list(v or [])` applied to the value under `"OutBlock_1"`. -/
def kvalRows : KVal → List KrxRow
  | KVal.null => []
  | KVal.rows rs => rs

/-- Result of the response-handling tail of `fetch_kospi200`: either the row
list, or the distinct `KrxError` carrying the (sorted) top-level keys. -/
inductive KrxFetch where
  | ok : List KrxRow → KrxFetch
  | krxError : List String → KrxFetch
deriving DecidableEq

/-- Insertion into a sorted list of strings, ordered by `compare`. -/
def insertSorted (x : String) : List String → List String
  | [] => [x]
  | y :: ys => if compare x y = Ordering.gt then y :: insertSorted x ys else x :: y :: ys

/-- Python `sorted(data)` over the dictionary's keys. -/
def sortKeys (l : List String) : List String := l.foldr insertSorted []

/-- Response handling of `fetch_kospi200` after JSON parsing: raise
`KrxError` when `"OutBlock_1"` is not a key, else return
`list(data.get("OutBlock_1") or [])`. -/
def handle_kospi200 (data : List (String × KVal)) : KrxFetch :=
  match data.lookup "OutBlock_1" with
  | none => KrxFetch.krxError (sortKeys (data.map Prod.fst))
  | some v => KrxFetch.ok (kvalRows v)

/-! ## dart.py -/

/-- One record of the parsed corp-code file, fields optional as dictionary
entries. -/
structure RegEntry where
  corp_code : Option String
  corp_name : Option String
  stock_code : Option String
  modify_date : Option String
deriving DecidableEq

/-- The index key an entry contributes in `build_corp_index`: its stripped
`stock_code`, unless the stripped `stock_code` or `corp_code` is empty, in
which case the entry is skipped. -/
def entryKey (e : RegEntry) : Option String :=
  let sc := stripStr (pyOrD e.stock_code "")
  let cc := stripStr (pyOrD e.corp_code "")
  if sc = "" ∨ cc = "" then none else some sc

/-- One iteration of the `build_corp_index` loop: skip the entry when its
key is invalid, otherwise overwrite the binding at the key. -/
def indexStep (idx : String → Option RegEntry) (e : RegEntry) : String → Option RegEntry :=
  match entryKey e with
  | none => idx
  | some k => fun t => if t = k then some e else idx t

/-- `DartClient.build_corp_index`: a dictionary from stripped stock code to
the (unmodified) entry, later entries overwriting earlier ones. -/
def build_corp_index (codes : List RegEntry) : String → Option RegEntry :=
  codes.foldl indexStep (fun _ => none)

/-- A disclosure item: an opaque string-keyed dictionary. -/
abbrev Filing : Type := List (String × String)

/-- Python `item.get(k, d)` on a filing dictionary. -/
def fGet (f : Filing) (k d : String) : String :=
  match List.lookup k f with
  | none => d
  | some v => v

/-- Parsed JSON body of a DART list-endpoint response, as far as the client
inspects it. -/
structure DartResp where
  status : Option String
  message : Option String
  total_page : Option Int
  list : Option (List Filing)
deriving DecidableEq

/-- Errors the DART client raises: `DartError(f"DART error {status}:
{message}")` carried as the status/message pair, and `ValueError`. -/
inductive DartErr where
  | dartError : String → String → DartErr
  | valueError : String → DartErr
deriving DecidableEq

/-- Status inspection in `DartClient._get_json`: a status other than `"000"`
or absent raises `DartError` with the status and `message or "Unexpected
response"`. -/
def checkStatus (data : DartResp) : Except DartErr DartResp :=
  match data.status with
  | none => Except.ok data
  | some s =>
    if s = "000" then Except.ok data
    else Except.error (DartErr.dartError s (pyOrD data.message "Unexpected response"))

/-- Python `data.get("list") or []`. -/
def itemsOf (data : DartResp) : List Filing :=
  match data.list with
  | none => []
  | some l => l

/-- Python `int(data.get("total_page") or 1)`: absent or zero (falsy) becomes
1. -/
def totalPagesOf (data : DartResp) : Int :=
  match data.total_page with
  | none => 1
  | some t => if t = 0 then 1 else t

/-- Query parameters of one page request issued by `search_filings`; the
detail-type parameter is only included when truthy. -/
structure DartReq where
  corp_code : String
  bgn_de : String
  end_de : String
  page_no : Nat
  page_count : Int
  pblntf_detail_ty : Option String
deriving DecidableEq

/-- The request `search_filings` issues for a given page number. -/
def mkReq (corp_code bgn_de end_de : String) (page_count : Int)
    (detail_types : Option String) (page : Nat) : DartReq :=
  ⟨corp_code, bgn_de, end_de, page, page_count,
   if truthy detail_types then detail_types else none⟩

/-- Result of a client operation: success, a raised error, or divergence of
the unbounded pagination loop (the Python loop has no iteration ceiling). -/
inductive Outcome (α : Type) where
  | ok : α → Outcome α
  | err : DartErr → Outcome α
  | diverge : Outcome α
deriving DecidableEq

/-- The `while True` pagination loop of `search_filings`, with an explicit
fuel bound standing for the unbounded iteration; returns the trace of issued
requests together with the outcome.  `env` maps each request to the parsed
JSON the service answers with. -/
def searchLoop (env : DartReq → DartResp) (base : Nat → DartReq) :
    Nat → Nat → List Filing → List DartReq → List DartReq × Outcome (List Filing)
  | 0, _, _, reqs => (reqs, Outcome.diverge)
  | fuel + 1, page, acc, reqs =>
    let req := base page
    match checkStatus (env req) with
    | Except.error e => (reqs ++ [req], Outcome.err e)
    | Except.ok data =>
      let acc2 := acc ++ itemsOf data
      if (page : Int) ≥ totalPagesOf data then (reqs ++ [req], Outcome.ok acc2)
      else searchLoop env base fuel (page + 1) acc2 (reqs ++ [req])

/-- `DartClient.search_filings`: rejects an empty `corp_code`, then drains
pages starting at 1. -/
def search_filings (env : DartReq → DartResp) (corp_code start_date end_date : String)
    (detail_types : Option String) (page_count : Int) (fuel : Nat) :
    List DartReq × Outcome (List Filing) :=
  if corp_code = "" then ([], Outcome.err (DartErr.valueError "corp_code is required"))
  else searchLoop env (mkReq corp_code start_date end_date page_count detail_types) fuel 1 [] []

/-! ## checker.py -/

/-- `DEFAULT_KEYWORDS` from `checker.py`. -/
def DEFAULT_KEYWORDS : List String :=
  ["배당기준일", "배당 기준일", "배당액 공시", "정관변경", "정관 변경", "배당 관련 정관"]

/-- Python `needle in hay` on strings: literal substring containment. -/
def strContains (hay needle : String) : Bool :=
  decide (needle.toList <:+: hay.toList)

/-- `DividendPolicyChecker._matches_policy`: `any(kw in report_name for kw in
keywords)`. -/
def matches_policy (keywords : List String) (report_name : String) : Bool :=
  keywords.any (fun kw => strContains report_name kw)

/-- Company record handed to `evaluate_company` (the joined dictionary),
fields optional. -/
structure CorpRec where
  corp_code : Option String
  corp_name : Option String
  name : Option String
  stock_code : Option String
deriving DecidableEq

/-- `CompanyResult` dataclass from `checker.py`. -/
structure CompanyResult where
  corp_code : String
  corp_name : String
  stock_code : String
  has_post_dividend_provision : Bool
  matching_reports : List Filing
deriving DecidableEq

/-- `DividendPolicyChecker.evaluate_company`: resolve identification fields,
search filings with the fixed detail filter `"B001,I001"` and default page
size 100, filter titles by keyword, aggregate. -/
def evaluate_company (env : DartReq → DartResp) (keywords : List String)
    (start_date end_date : String) (fuel : Nat) (corp : CorpRec) : Outcome CompanyResult :=
  let corp_code := pyOrD corp.corp_code ""
  let corp_name := pyOrD (pyOr corp.corp_name corp.name) ""
  let stock_code := pyOrD corp.stock_code ""
  match (search_filings env corp_code start_date end_date (some "B001,I001") 100 fuel).2 with
  | Outcome.err e => Outcome.err e
  | Outcome.diverge => Outcome.diverge
  | Outcome.ok filings =>
    let matched := filings.filter (fun item => matches_policy keywords (fGet item "report_nm" ""))
    Outcome.ok ⟨corp_code, corp_name, stock_code, !matched.isEmpty, matched⟩

/-! ## Statement vocabulary -/

/-- An optional field value is whitespace-clean when it is absent, empty, or
keeps at least one character after stripping. -/
def fieldClean (o : Option String) : Bool :=
  match o with
  | none => true
  | some s => (s == "") || !(stripStr s == "")

/-- All six candidate ticker/name source fields of a raw row are
whitespace-clean. -/
def rowClean (e : KrxRow) : Bool :=
  fieldClean e.ISU_SRT_CD && fieldClean e.TDD_CLSPRC && fieldClean e.CMP_CD &&
  fieldClean e.ISU_ABBRV && fieldClean e.CMP_KOR && fieldClean e.KOR_SHRT_NM

/-! ## Concrete data used in witnesses and counterexamples -/

/-- Raw row whose ticker field is a single space: truthy, but stripped to the
empty string. -/
def krxBad : KrxRow := ⟨some " ", none, none, some "X", none, none, none, none⟩

/-- Well-formed raw row. -/
def krxGood : KrxRow := ⟨some "005930", none, none, some "삼성전자", none, none, none, none⟩

/-- The normalized form of `krxGood`. -/
def rowGood : ConstRow := ⟨"005930", "삼성전자", "KOSPI"⟩

/-- Registry entry with stock code `005930`. -/
def regA : RegEntry := ⟨some "00126380", some "Sample Co", some "005930", none⟩

/-- Later registry entry whose stock code also strips to `005930`. -/
def regB : RegEntry := ⟨some "00999999", some "Other Co", some " 005930 ", none⟩

/-- Two entries sharing the ticker `005930`. -/
def regCodes : List RegEntry := [regA, regB]

/-- Sample filing dictionaries. -/
def filingA : Filing := [("report_nm", "r1")]

/-- Second sample filing. -/
def filingB : Filing := [("report_nm", "r2")]

/-- Third sample filing. -/
def filingC : Filing := [("report_nm", "r3")]

/-- The request `search_filings` issues against the sample environments for a
given page. -/
def reqX : Nat → DartReq := mkReq "X" "20230101" "20231231" 100 none

/-- Service whose first page declares 3 total pages but whose second page
declares 1, every page succeeding. -/
def envX : DartReq → DartResp := fun r =>
  if r.page_no = 1 then ⟨some "000", none, some 3, some [filingA]⟩
  else ⟨some "000", none, some 1, some [filingB]⟩

/-- Service declaring 3 total pages consistently, every page succeeding (the
third page with an absent status, which counts as success). -/
def envA : DartReq → DartResp := fun r =>
  if r.page_no = 1 then ⟨some "000", none, some 3, some [filingA]⟩
  else if r.page_no = 2 then ⟨some "000", none, some 3, some [filingB]⟩
  else ⟨none, none, some 3, some [filingC]⟩

/-- Service declaring 3 total pages whose second page answers with the error
status `"013"`. -/
def envB : DartReq → DartResp := fun r =>
  if r.page_no = 1 then ⟨some "000", none, some 3, some [filingA]⟩
  else ⟨some "013", some "조회된 데이타가 없습니다.", none, none⟩

/-- Service answering success with an absent `total_page`. -/
def envC : DartReq → DartResp := fun _ => ⟨some "000", none, none, some [filingA]⟩

/-- Service declaring 2 total pages whose second page has a `null` item
list. -/
def envD : DartReq → DartResp := fun r =>
  if r.page_no = 1 then ⟨some "000", none, some 2, some [filingA]⟩
  else ⟨some "000", none, some 2, none⟩

/-- Filing titled with an articles-of-association change. -/
def item1 : Filing := [("report_nm", "정관변경에 관한 사항")]

/-- Filing titled with an earnings announcement. -/
def item2 : Filing := [("report_nm", "실적발표")]

/-- Single-page service returning the two scenario filings. -/
def envE : DartReq → DartResp := fun _ => ⟨some "000", none, some 1, some [item1, item2]⟩

/-- Company record for the evaluation scenario. -/
def corpE : CorpRec := ⟨some "00126380", some "Sample Co", none, some "005930"⟩

/-! ## Helper lemmas -/

theorem stripStr_of_empty : stripStr "" = "" := rfl

theorem pyOr_eq_some {a b : Option String} {s : String} (h : pyOr a b = some s) :
    a = some s ∨ b = some s := by
  unfold pyOr at h
  cases a with
  | none => exact Or.inr h
  | some x =>
    by_cases hx : x = ""
    · simp [hx] at h
      exact Or.inr h
    · simp [hx] at h
      exact Or.inl (by rw [h])

theorem truthy_eq_true {a : Option String} (h : truthy a = true) :
    ∃ s, a = some s ∧ s ≠ "" := by
  cases a with
  | none => simp [truthy] at h
  | some s =>
    refine ⟨s, rfl, ?_⟩
    simpa [truthy] using h

theorem fieldClean_strip {o : Option String} {s : String} (hc : fieldClean o = true)
    (ho : o = some s) (hs : s ≠ "") : stripStr s ≠ "" := by
  subst ho
  simpa [fieldClean, hs] using hc

theorem pyOrD_of_some {s : String} (hs : s ≠ "") (d : String) :
    pyOrD (some s) d = s := by
  simp [pyOrD, hs]

/-! ## Claim theorems -/

/-- C8: a call to `search_filings` with an empty `corp_code` fails
immediately with the validation error, issues no page request (empty trace)
and returns no items, whatever the environment and the other arguments. -/
theorem C8_empty_corp_code_fails_fast (env : DartReq → DartResp)
    (start_date end_date : String) (detail_types : Option String)
    (page_count : Int) (fuel : Nat) :
    search_filings env "" start_date end_date detail_types page_count fuel =
      ([], Outcome.err (DartErr.valueError "corp_code is required")) := by
  simp [search_filings]

/-- C6: `_matches_policy` over the default keywords returns `true` exactly
when some configured keyword occurs as a literal character-for-character
substring of the title; in particular it accepts
`"2024년 배당기준일 변경 공시"` and rejects `"영업실적 발표"`. -/
theorem C6_matches_policy_substring :
    (∀ title : String,
        matches_policy DEFAULT_KEYWORDS title = true ↔
          ∃ kw ∈ DEFAULT_KEYWORDS, kw.toList <:+: title.toList) ∧
    matches_policy DEFAULT_KEYWORDS "2024년 배당기준일 변경 공시" = true ∧
    matches_policy DEFAULT_KEYWORDS "영업실적 발표" = false := by
  refine ⟨?_, by decide, by decide⟩
  intro title
  simp [matches_policy, strContains, List.any_eq_true]

/-- C7: the response handling of `fetch_kospi200` raises the distinct
`KrxError` (carrying the sorted key list) exactly when the parsed JSON lacks
the `"OutBlock_1"` key, and returns the row sequence under that key when it
is present. -/
theorem C7_missing_result_key (data : List (String × KVal)) :
    (data.lookup "OutBlock_1" = none →
        handle_kospi200 data = KrxFetch.krxError (sortKeys (data.map Prod.fst))) ∧
    (∀ v, data.lookup "OutBlock_1" = some v →
        handle_kospi200 data = KrxFetch.ok (kvalRows v)) := by
  constructor
  · intro h
    simp [handle_kospi200, h]
  · intro v h
    simp [handle_kospi200, h]

/-- Witness for C7 at concrete responses: a response keyed only by `"foo"`
raises `KrxError`, and a response carrying `"OutBlock_1"` returns its rows. -/
theorem C7_missing_result_key_witness :
    handle_kospi200 [("foo", KVal.null)] = KrxFetch.krxError ["foo"] ∧
    handle_kospi200 [("OutBlock_1", KVal.rows [krxGood])] = KrxFetch.ok [krxGood] := by
  constructor
  · rw [(C7_missing_result_key [("foo", KVal.null)]).1 (by decide)]
    decide
  · rw [(C7_missing_result_key [("OutBlock_1", KVal.rows [krxGood])]).2
      (KVal.rows [krxGood]) (by decide)]
    decide

theorem entryKey_nonempty {e : RegEntry} {t : String} (h : entryKey e = some t) :
    pyOrD e.stock_code "" ≠ "" ∧ pyOrD e.corp_code "" ≠ "" := by
  simp only [entryKey] at h
  by_cases hsc : stripStr (pyOrD e.stock_code "") = ""
  · simp [hsc] at h
  · by_cases hcc : stripStr (pyOrD e.corp_code "") = ""
    · simp [hcc] at h
    · exact ⟨fun h0 => hsc (by rw [h0]; rfl), fun h0 => hcc (by rw [h0]; rfl)⟩

theorem build_corp_index_eq (codes : List RegEntry) (t : String) :
    build_corp_index codes t =
      (codes.filter (fun e => entryKey e = some t)).getLast? := by
  induction codes using List.reverseRecOn with
  | nil => rfl
  | append_singleton l e ih =>
    have hstep : build_corp_index (l ++ [e]) t = indexStep (build_corp_index l) e t := by
      simp [build_corp_index, List.foldl_append]
    rw [hstep]
    cases hk : entryKey e with
    | none =>
      have hf : List.filter (fun e => decide (entryKey e = some t)) [e] = [] := by
        simp [hk]
      simp only [List.filter_append, hf, List.append_nil, indexStep, hk]
      exact ih
    | some k =>
      by_cases htk : t = k
      · subst htk
        have hf : List.filter (fun e => decide (entryKey e = some t)) [e] = [e] := by
          simp [hk]
        simp only [List.filter_append, hf, List.getLast?_concat, indexStep, hk]
        simp
      · have hf : List.filter (fun e => decide (entryKey e = some t)) [e] = [] := by
          simp [hk]
          intro h
          exact htk h.symm
        simp only [List.filter_append, hf, List.append_nil, indexStep, hk]
        simp [htk, ih]

/-- C4: `build_corp_index` maps each ticker to the last entry, in iteration
order, whose (stripped) stock code equals that ticker and whose stripped
stock and corp codes are both non-empty; consequently every entry the index
contains has a non-empty stock code and a non-empty corp code. -/
theorem C4_build_corp_index_lww (codes : List RegEntry) (t : String) :
    build_corp_index codes t =
      (codes.filter (fun e => entryKey e = some t)).getLast? ∧
    ∀ e, build_corp_index codes t = some e →
      pyOrD e.stock_code "" ≠ "" ∧ pyOrD e.corp_code "" ≠ "" := by
  refine ⟨build_corp_index_eq codes t, ?_⟩
  intro e he
  rw [build_corp_index_eq codes t] at he
  obtain ⟨ys, hys⟩ := List.getLast?_eq_some_iff.mp he
  have hmem : e ∈ codes.filter (fun e => decide (entryKey e = some t)) := by
    rw [hys]
    simp
  exact entryKey_nonempty (of_decide_eq_true (List.mem_filter.mp hmem).2)

/-- Witness for C4: of two entries sharing the ticker `005930`, the later
one wins, and its stock and corp codes are non-empty. -/
theorem C4_build_corp_index_lww_witness :
    build_corp_index regCodes "005930" = some regB ∧
    pyOrD regB.stock_code "" ≠ "" ∧ pyOrD regB.corp_code "" ≠ "" := by
  constructor
  · rw [(C4_build_corp_index_lww regCodes "005930").1]
    decide
  · exact (C4_build_corp_index_lww regCodes "005930").2 regB (by decide)

/-- C3 counterexample: a raw row whose ticker field is the single space
`" "` (truthy, so not dropped) and whose name is `"X"` produces an output
row whose ticker is empty after stripping, refuting "every row of the
output has a non-empty ticker and a non-empty name" on this input. -/
theorem C3_counterexample_empty_ticker :
    ¬ (∀ r ∈ normalize_constituents [krxBad], r.stock_code ≠ "" ∧ r.name ≠ "") := by
  decide

/-- C3 (amended): the output of `normalize_constituents` is never longer
than the input; a row whose ticker and name both fail to resolve through the
fallback chains is dropped; and whenever no source field of any input row is
a non-empty all-whitespace string, every output row has a non-empty ticker
and a non-empty name.  (As stated the claim fails: truthiness is checked
before stripping, so an all-whitespace ticker or name survives the check and
is stripped to the empty string in the output.) -/
theorem C3_normalize_amended (entries : List KrxRow) :
    (normalize_constituents entries).length ≤ entries.length ∧
    (∀ e, truthy (resolvedTicker e) = false ∧ truthy (resolvedName e) = false →
        normOne e = none) ∧
    ((∀ e ∈ entries, rowClean e = true) →
      ∀ r ∈ normalize_constituents entries, r.stock_code ≠ "" ∧ r.name ≠ "") := by
  refine ⟨List.length_filterMap_le _ _, ?_, ?_⟩
  · intro e h
    simp [normOne, h.1]
  · intro hclean r hr
    obtain ⟨e, he, hnorm⟩ := List.mem_filterMap.mp hr
    cases hc : truthy (resolvedTicker e) && truthy (resolvedName e) with
    | false =>
      simp [normOne, hc] at hnorm
    | true =>
      rw [Bool.and_eq_true] at hc
      obtain ⟨ht, hn⟩ := hc
      obtain ⟨s, hs, hsne⟩ := truthy_eq_true ht
      obtain ⟨u, hu, hune⟩ := truthy_eq_true hn
      have hcl := hclean e he
      rw [rowClean] at hcl
      simp only [Bool.and_eq_true] at hcl
      obtain ⟨⟨⟨⟨⟨c1, c2⟩, c3⟩, c4⟩, c5⟩, c6⟩ := hcl
      have hticker : stripStr s ≠ "" := by
        rcases pyOr_eq_some (show pyOr (pyOr e.ISU_SRT_CD e.TDD_CLSPRC) e.CMP_CD = some s from hs) with h | h
        · rcases pyOr_eq_some h with h2 | h2
          · exact fieldClean_strip c1 h2 hsne
          · exact fieldClean_strip c2 h2 hsne
        · exact fieldClean_strip c3 h hsne
      have hname : stripStr u ≠ "" := by
        rcases pyOr_eq_some (show pyOr (pyOr e.ISU_ABBRV e.CMP_KOR) e.KOR_SHRT_NM = some u from hu) with h | h
        · rcases pyOr_eq_some h with h2 | h2
          · exact fieldClean_strip c4 h2 hune
          · exact fieldClean_strip c5 h2 hune
        · exact fieldClean_strip c6 h hune
      simp only [normOne, ht, hn, Bool.and_self, if_true, Option.some.injEq] at hnorm
      subst hnorm
      constructor
      · show stripStr (pyOrD (resolvedTicker e) "") ≠ ""
        rw [hs, pyOrD_of_some hsne]
        exact hticker
      · show stripStr (pyOrD (resolvedName e) "") ≠ ""
        rw [hu, pyOrD_of_some hune]
        exact hname

/-- Witness for the amended C3 at a concrete whitespace-clean row. -/
theorem C3_normalize_amended_witness :
    (normalize_constituents [krxGood]).length ≤ [krxGood].length ∧
    rowGood ∈ normalize_constituents [krxGood] ∧
    rowGood.stock_code ≠ "" ∧ rowGood.name ≠ "" := by
  refine ⟨(C3_normalize_amended [krxGood]).1, by decide, ?_⟩
  exact (C3_normalize_amended [krxGood]).2.2 (by decide) rowGood (by decide)

theorem checkStatus_ok {data : DartResp}
    (h : data.status = none ∨ data.status = some "000") :
    checkStatus data = Except.ok data := by
  rcases h with h | h <;> simp [checkStatus, h]

theorem searchLoop_drain (env : DartReq → DartResp) (base : Nat → DartReq) (n : Nat)
    (hgood : ∀ q, 1 ≤ q → q ≤ n →
      (((env (base q)).status = none ∨ (env (base q)).status = some "000") ∧
        totalPagesOf (env (base q)) = (n : Int))) :
    ∀ fuel p acc reqs, 1 ≤ p → p ≤ n → n - p < fuel →
      searchLoop env base fuel p acc reqs =
        (reqs ++ (List.range' p (n - p + 1)).map base,
         Outcome.ok (acc ++
           ((List.range' p (n - p + 1)).map (fun q => itemsOf (env (base q)))).flatten)) := by
  intro fuel
  induction fuel with
  | zero =>
    intro p acc reqs h1 h2 h3
    omega
  | succ fuel ih =>
    intro p acc reqs h1 h2 h3
    obtain ⟨hstat, htot⟩ := hgood p h1 h2
    simp only [searchLoop]
    rw [checkStatus_ok hstat]
    simp only []
    rw [htot]
    by_cases hpn : p = n
    · subst hpn
      rw [if_pos (le_refl _)]
      simp [List.range'_one]
    · have hlt : p < n := by omega
      rw [if_neg (by omega)]
      rw [ih (p + 1) (acc ++ itemsOf (env (base p))) (reqs ++ [base p])
        (by omega) (by omega) (by omega)]
      have hrange : List.range' p (n - p + 1) = p :: List.range' (p + 1) (n - (p + 1) + 1) := by
        have h4 : n - p + 1 = (n - (p + 1) + 1) + 1 := by omega
        rw [h4, List.range'_succ]
      rw [hrange]
      simp [List.append_assoc]

/-- C9: when the first page's response succeeds but carries an absent, null
or zero `total_page`, `search_filings` treats the total as 1: it issues only
the page-1 request and returns exactly that page's items. -/
theorem C9_falsy_total_page (env : DartReq → DartResp)
    (corp bgn ed : String) (detail : Option String) (pc : Int) (fuel : Nat)
    (hc : corp ≠ "") (hf : 1 ≤ fuel)
    (hstat : (env (mkReq corp bgn ed pc detail 1)).status = none ∨
      (env (mkReq corp bgn ed pc detail 1)).status = some "000")
    (htot : (env (mkReq corp bgn ed pc detail 1)).total_page = none ∨
      (env (mkReq corp bgn ed pc detail 1)).total_page = some 0) :
    search_filings env corp bgn ed detail pc fuel =
      ([mkReq corp bgn ed pc detail 1],
       Outcome.ok (itemsOf (env (mkReq corp bgn ed pc detail 1)))) := by
  obtain ⟨f, rfl⟩ : ∃ f, fuel = f + 1 := ⟨fuel - 1, by omega⟩
  rw [search_filings, if_neg hc]
  simp only [searchLoop]
  rw [checkStatus_ok hstat]
  simp only []
  have h1 : totalPagesOf (env (mkReq corp bgn ed pc detail 1)) = 1 := by
    rcases htot with h | h <;> simp [totalPagesOf, h]
  rw [h1]
  simp

/-- Witness for C9: a service answering success with no `total_page` field
is drained in a single page request. -/
theorem C9_falsy_total_page_witness :
    search_filings envC "X" "20230101" "20231231" none 100 5 =
      ([reqX 1], Outcome.ok [filingA]) := by
  rw [C9_falsy_total_page envC "X" "20230101" "20231231" none 100 5
    (by decide) (by omega) (by decide) (by decide)]
  decide

/-- C1 counterexample: against `envX` every page succeeds and the first
page declares `total_page = 3`, yet `search_filings` issues only 2 page
requests and returns only 2 pages' items, because the loop re-reads the
total from every page and page 2 declares 1.  This refutes the claim as
stated for n = 3. -/
theorem C1_counterexample_inconsistent_totals :
    totalPagesOf (envX (reqX 1)) = 3 ∧
    (envX (reqX 1)).status = some "000" ∧ (envX (reqX 2)).status = some "000" ∧
    (envX (reqX 3)).status = some "000" ∧
    (search_filings envX "X" "20230101" "20231231" none 100 10).1.map DartReq.page_no = [1, 2] ∧
    (search_filings envX "X" "20230101" "20231231" none 100 10).2 =
      Outcome.ok [filingA, filingB] ∧
    (search_filings envX "X" "20230101" "20231231" none 100 10).1.length ≠ 3 := by
  decide

/-- C1 (amended): when every page's response (not only the first) declares
the same total-page count n ≥ 1 and carries a success status,
`search_filings` issues exactly the page requests 1 through n in increasing
order and returns the concatenation of the n pages' item lists in page
order, for any `page_count` argument and any sufficient fuel. -/
theorem C1_search_pagination (env : DartReq → DartResp)
    (corp bgn ed : String) (detail : Option String) (pc : Int) (n fuel : Nat)
    (hc : corp ≠ "") (hn : 1 ≤ n) (hf : n ≤ fuel)
    (hgood : ∀ q ∈ List.range' 1 n,
      (((env (mkReq corp bgn ed pc detail q)).status = none ∨
         (env (mkReq corp bgn ed pc detail q)).status = some "000") ∧
       totalPagesOf (env (mkReq corp bgn ed pc detail q)) = (n : Int))) :
    search_filings env corp bgn ed detail pc fuel =
      ((List.range' 1 n).map (mkReq corp bgn ed pc detail),
       Outcome.ok (((List.range' 1 n).map
         (fun q => itemsOf (env (mkReq corp bgn ed pc detail q)))).flatten)) := by
  rw [search_filings, if_neg hc]
  have hgood2 : ∀ q, 1 ≤ q → q ≤ n →
      (((env (mkReq corp bgn ed pc detail q)).status = none ∨
         (env (mkReq corp bgn ed pc detail q)).status = some "000") ∧
       totalPagesOf (env (mkReq corp bgn ed pc detail q)) = (n : Int)) := by
    intro q hq1 hq2
    exact hgood q (List.mem_range'_1.mpr ⟨hq1, by omega⟩)
  rw [searchLoop_drain env (mkReq corp bgn ed pc detail) n hgood2 fuel 1 [] []
    (le_refl 1) hn (by omega)]
  have h1 : n - 1 + 1 = n := by omega
  rw [h1]
  simp

/-- Witness for the amended C1: a consistent 3-page service is drained with
exactly the requests for pages 1, 2, 3 and the concatenated items. -/
theorem C1_search_pagination_witness :
    search_filings envA "X" "20230101" "20231231" none 100 3 =
      ([reqX 1, reqX 2, reqX 3], Outcome.ok [filingA, filingB, filingC]) := by
  rw [C1_search_pagination envA "X" "20230101" "20231231" none 100 3 3
    (by decide) (by omega) (by omega) (by decide)]
  decide

theorem searchLoop_fail (env : DartReq → DartResp) (base : Nat → DartReq) (k : Nat) (s : String)
    (hprev : ∀ q, 1 ≤ q → q < k →
      (((env (base q)).status = none ∨ (env (base q)).status = some "000") ∧
        (k : Int) ≤ totalPagesOf (env (base q))))
    (hbad : (env (base k)).status = some s) (hs : s ≠ "000") :
    ∀ fuel p acc reqs, 1 ≤ p → p ≤ k → k - p < fuel →
      searchLoop env base fuel p acc reqs =
        (reqs ++ (List.range' p (k - p + 1)).map base,
         Outcome.err (DartErr.dartError s
           (pyOrD (env (base k)).message "Unexpected response"))) := by
  intro fuel
  induction fuel with
  | zero =>
    intro p acc reqs h1 h2 h3
    omega
  | succ fuel ih =>
    intro p acc reqs h1 h2 h3
    by_cases hpk : p = k
    · subst hpk
      simp only [searchLoop]
      have hchk : checkStatus (env (base p)) = Except.error
          (DartErr.dartError s (pyOrD (env (base p)).message "Unexpected response")) := by
        simp [checkStatus, hbad, hs]
      rw [hchk]
      have h4 : p - p + 1 = 1 := by omega
      simp [h4, List.range'_one]
    · have hlt : p < k := by omega
      obtain ⟨hstat, htot⟩ := hprev p h1 hlt
      simp only [searchLoop]
      rw [checkStatus_ok hstat]
      simp only []
      rw [if_neg (by omega)]
      rw [ih (p + 1) (acc ++ itemsOf (env (base p))) (reqs ++ [base p])
        (by omega) (by omega) (by omega)]
      have hrange : List.range' p (k - p + 1) = p :: List.range' (p + 1) (k - (p + 1) + 1) := by
        have h4 : k - p + 1 = (k - (p + 1) + 1) + 1 := by omega
        rw [h4, List.range'_succ]
      rw [hrange]
      simp [List.append_assoc]

/-- C2: when the pagination loop reaches a page k whose response carries a
status other than `"000"` (pages before k succeeding and declaring at least
k total pages), `search_filings` aborts with a `DartError` carrying the
upstream status and message, returns no items at all (the page-1..k-1 items
are discarded), and issues no request beyond page k — its trace is exactly
pages 1 through k. -/
theorem C2_nonsuccess_aborts (env : DartReq → DartResp)
    (corp bgn ed : String) (detail : Option String) (pc : Int)
    (k fuel : Nat) (s : String)
    (hc : corp ≠ "") (hk : 1 ≤ k) (hf : k ≤ fuel)
    (hprev : ∀ q ∈ List.range' 1 (k - 1),
      (((env (mkReq corp bgn ed pc detail q)).status = none ∨
         (env (mkReq corp bgn ed pc detail q)).status = some "000") ∧
        (k : Int) ≤ totalPagesOf (env (mkReq corp bgn ed pc detail q))))
    (hbad : (env (mkReq corp bgn ed pc detail k)).status = some s)
    (hs : s ≠ "000") :
    search_filings env corp bgn ed detail pc fuel =
      ((List.range' 1 k).map (mkReq corp bgn ed pc detail),
       Outcome.err (DartErr.dartError s
         (pyOrD (env (mkReq corp bgn ed pc detail k)).message "Unexpected response"))) := by
  rw [search_filings, if_neg hc]
  have hprev2 : ∀ q, 1 ≤ q → q < k →
      (((env (mkReq corp bgn ed pc detail q)).status = none ∨
         (env (mkReq corp bgn ed pc detail q)).status = some "000") ∧
        (k : Int) ≤ totalPagesOf (env (mkReq corp bgn ed pc detail q))) := by
    intro q hq1 hq2
    exact hprev q (List.mem_range'_1.mpr ⟨hq1, by omega⟩)
  rw [searchLoop_fail env (mkReq corp bgn ed pc detail) k s hprev2 hbad hs fuel 1 [] []
    (le_refl 1) hk (by omega)]
  have h1 : k - 1 + 1 = k := by omega
  rw [h1]
  simp

/-- Witness for C2: a service whose page-2 response has status `"013"`
aborts with the upstream error; page 1's items are not returned and no page
beyond 2 is requested. -/
theorem C2_nonsuccess_aborts_witness :
    search_filings envB "X" "20230101" "20231231" none 100 5 =
      ([reqX 1, reqX 2],
       Outcome.err (DartErr.dartError "013" "조회된 데이타가 없습니다.")) := by
  rw [C2_nonsuccess_aborts envB "X" "20230101" "20231231" none 100 2 5 "013"
    (by decide) (by omega) (by omega) (by decide) (by decide) (by decide)]
  decide

/-- C10: in a successful multi-page search (every page declaring the same
total n and succeeding), a page j whose `list` field is absent or null
contributes zero items rather than raising an error: the search still
returns `Outcome.ok` with the concatenation of all pages' item lists, page
j's contribution being `[]`. -/
theorem C10_null_list_page (env : DartReq → DartResp)
    (corp bgn ed : String) (detail : Option String) (pc : Int) (n j fuel : Nat)
    (hc : corp ≠ "") (hn : 1 ≤ n) (hf : n ≤ fuel)
    (hgood : ∀ q ∈ List.range' 1 n,
      (((env (mkReq corp bgn ed pc detail q)).status = none ∨
         (env (mkReq corp bgn ed pc detail q)).status = some "000") ∧
       totalPagesOf (env (mkReq corp bgn ed pc detail q)) = (n : Int)))
    (hj : j ∈ List.range' 1 n)
    (hnull : (env (mkReq corp bgn ed pc detail j)).list = none) :
    (search_filings env corp bgn ed detail pc fuel).2 =
      Outcome.ok (((List.range' 1 n).map
        (fun q => itemsOf (env (mkReq corp bgn ed pc detail q)))).flatten) ∧
    itemsOf (env (mkReq corp bgn ed pc detail j)) = [] := by
  constructor
  · rw [search_filings, if_neg hc]
    have hgood2 : ∀ q, 1 ≤ q → q ≤ n →
        (((env (mkReq corp bgn ed pc detail q)).status = none ∨
           (env (mkReq corp bgn ed pc detail q)).status = some "000") ∧
         totalPagesOf (env (mkReq corp bgn ed pc detail q)) = (n : Int)) := by
      intro q hq1 hq2
      exact hgood q (List.mem_range'_1.mpr ⟨hq1, by omega⟩)
    rw [searchLoop_drain env (mkReq corp bgn ed pc detail) n hgood2 fuel 1 [] []
      (le_refl 1) hn (by omega)]
    have h1 : n - 1 + 1 = n := by omega
    rw [h1]
    simp
  · simp [itemsOf, hnull]

/-- Witness for C10: a 2-page service whose second page has a null item
list returns just page 1's items, with page 2 contributing nothing. -/
theorem C10_null_list_page_witness :
    (search_filings envD "X" "20230101" "20231231" none 100 2).2 =
      Outcome.ok [filingA] ∧ itemsOf (envD (reqX 2)) = [] := by
  have h := C10_null_list_page envD "X" "20230101" "20231231" none 100 2 2 2
    (by decide) (by omega) (by omega) (by decide) (by decide) (by decide)
  constructor
  · rw [h.1]
    decide
  · exact h.2

/-- C5: when the filing search underlying `evaluate_company` succeeds,
the returned `CompanyResult` has `matching_reports` equal to exactly the
filter, in fetch order, of the fetched filings whose `report_nm` matches a
configured keyword, and `has_post_dividend_provision` is true exactly when
at least one fetched filing matches; the search is issued with the fixed
detail filter `"B001,I001"` and page size 100. -/
theorem C5_evaluate_company_filters (env : DartReq → DartResp)
    (keywords : List String) (sd ed : String) (fuel : Nat) (corp : CorpRec)
    (filings : List Filing)
    (h : (search_filings env (pyOrD corp.corp_code "") sd ed
        (some "B001,I001") 100 fuel).2 = Outcome.ok filings) :
    evaluate_company env keywords sd ed fuel corp =
      Outcome.ok ⟨pyOrD corp.corp_code "", pyOrD (pyOr corp.corp_name corp.name) "",
        pyOrD corp.stock_code "",
        !(filings.filter (fun item =>
            matches_policy keywords (fGet item "report_nm" ""))).isEmpty,
        filings.filter (fun item =>
          matches_policy keywords (fGet item "report_nm" ""))⟩ ∧
    ((!(filings.filter (fun item =>
        matches_policy keywords (fGet item "report_nm" ""))).isEmpty) = true ↔
      ∃ item ∈ filings, matches_policy keywords (fGet item "report_nm" "") = true) := by
  constructor
  · simp only [evaluate_company]
    rw [h]
  · simp [List.isEmpty_iff, List.filter_eq_nil_iff]

/-- Witness for C5: the scenario with one filing titled
`"정관변경에 관한 사항"` and one titled `"실적발표"` yields the provision flag
true and exactly the first filing as the matching report. -/
theorem C5_evaluate_company_filters_witness :
    evaluate_company envE DEFAULT_KEYWORDS "20230101" "20231231" 1 corpE =
      Outcome.ok ⟨"00126380", "Sample Co", "005930", true, [item1]⟩ := by
  rw [(C5_evaluate_company_filters envE DEFAULT_KEYWORDS "20230101" "20231231" 1 corpE
    [item1, item2] (by decide)).1]
  decide
